import Mathlib

/-!
Shallow embedding of `skyplane/api/dataplane.py` (the Dataplane lifecycle
controller) and proofs about its provisioning, bootstrap, dispatch and
deprovision logic.

Conventions of the embedding:
* Python dicts keyed by topology nodes are modelled as association lists
  with overwrite-on-insert semantics (`dictInsert`); a `KeyError` lookup is
  an `Option` returning `none`.
* The external `Provisioner` is a collaborator: its `provision` response is
  an input (the list of `Server` handles obtained from the returned uuids),
  and the calls the Dataplane makes to it (`add_task`, `init_global`,
  `provision`, `deprovision`) are recorded as effects in the result.
* `setup_args` is a Python dict built by a sequence of writes
  `setup_args[ip] = v`; we record the ordered write sequence.
* An uncaught Python exception (`IndexError` from `list.pop()` on an empty
  region bucket, `AttributeError` from `getattr`, `ValueError` from tuple
  unpacking, `KeyError` from `self.bound_nodes[n]`) is modelled by the
  failure case of `Option`/`Except`, and surfaces as `exn := true` in the
  outcome of `provision`.
-/

/-- A `ReplicationTopologyGateway`: a vertex of the topology. Identity is
structural (an id plus the region tag string `"<provider>:<region>"`). -/
structure GatewayNode where
  gid : Nat
  region : String
deriving DecidableEq, Repr

/-- A node of the full topology graph: either a gateway or some other kind
of endpoint node (object store etc.); `get_outgoing_paths` targets are
filtered with `isinstance(n, ReplicationTopologyGateway)` in the source. -/
inductive TopoNode where
  | gateway (g : GatewayNode)
  | other (oid : Nat) (region : String)
deriving DecidableEq, Repr

/-- The region tag of a topology node (`n.region` in the source). -/
def TopoNode.region : TopoNode → String
  | .gateway g => g.region
  | .other _ r => r

/-- A live `compute.Server` handle, as consumed by the Dataplane:
region tag, public/private IPs and an identity. -/
structure Server where
  sid : Nat
  region_tag : String
  public_ip : String
  private_ip : String
deriving DecidableEq, Repr

/-- The read-only view of `ReplicationTopology` the Dataplane consumes:
`nodes`, `gateway_nodes`, `get_outgoing_paths`, `source_instances`,
`sink_instances`. Routing values attached to edges are opaque; we model
them as `Nat`. -/
structure Topology where
  nodes : List TopoNode
  gateway_nodes : List GatewayNode
  get_outgoing_paths : GatewayNode → List (TopoNode × Nat)
  source_instances : List GatewayNode
  sink_instances : List GatewayNode

/-- The fields of `TransferConfig` the Dataplane reads. -/
structure TransferConfig where
  aws_instance_class : String
  azure_instance_class : String
  gcp_instance_class : String
  aws_use_spot_instances : Bool
  azure_use_spot_instances : Bool
  gcp_use_spot_instances : Bool
  autoterminate_minutes : Nat
  requester_pays : Bool
  use_e2ee : Bool
  use_bbr : Bool
  use_compression : Bool
  use_socket_tls : Bool
deriving DecidableEq, Repr

/-- A `TransferJob` descriptor (`CopyJob` / `SyncJob`); `is_sync` tags which
constructor was used. -/
structure TransferJob where
  src : String
  dst : String
  recursive : Bool
  requester_pays : Bool
  uuid : Nat
  is_sync : Bool
deriving DecidableEq, Repr

/-- A `TransferProgressTracker` handle as the Dataplane sees it: the job
list it was constructed with and whether `start()` was called. -/
structure TransferProgressTracker where
  jobs : List TransferJob
  started : Bool
deriving DecidableEq, Repr

/-- The mutable state of a `Dataplane` object relevant to the claims. -/
structure DataplaneState where
  provisioned : Bool
  bound_nodes : List (GatewayNode × Server)
  jobs_to_dispatch : List TransferJob
  pending_transfers : List TransferProgressTracker
deriving DecidableEq, Repr

/-- One `provisioner.add_task(...)` call. -/
structure ProvisionTask where
  cloud_provider : String
  region : String
  vm_type : String
  spot : Bool
  autoterminate_minutes : Nat
deriving DecidableEq, Repr

/-- The arguments of one `gateway_server.start_gateway(...)` call.
`setup_args` is the ordered sequence of dict writes; the e2ee key is
`some` exactly when the source passes `e2ee_key_bytes` (not `None`). -/
structure StartGatewayCall where
  setup_args : List (String × Nat)
  gateway_docker_image : String
  e2ee_key_bytes : Option Nat
  use_bbr : Bool
  use_compression : Bool
  use_socket_tls : Bool
deriving DecidableEq, Repr

/-- The calls `provision` makes to the external provisioner, plus the
errors it logs via `logger.error`. -/
structure ProvisionEffects where
  tasks : List ProvisionTask
  init_global : Option (Bool × Bool × Bool)
  provision_called : Bool
  errors : List String
deriving DecidableEq, Repr

/-- The result of a `Dataplane.provision` call: the post state, the
effects on the provisioner, whether an uncaught exception propagated, and
the `start_gateway` calls issued during bootstrap (gateway node, the
server handle the command was issued on, and the call arguments — `none`
when that node's bootstrap task itself raised). -/
structure ProvisionOutcome where
  st : DataplaneState
  eff : ProvisionEffects
  exn : Bool
  startCalls : List (GatewayNode × Server × Option StartGatewayCall)
deriving DecidableEq, Repr

/-- Splitting a character list on a separator character, the semantics of
Python `str.split(sep)` (and of `String.splitOn`): `"" ↦ [""]`,
`"a::b" ↦ ["a", "", "b"]`. Structural recursion so concrete instances
reduce in the kernel. -/
def splitChars (c : Char) : List Char → List (List Char)
  | [] => [[]]
  | x :: xs =>
    match splitChars c xs with
    | [] => [[]]
    | h :: t => if x = c then [] :: h :: t else (x :: h) :: t

/-- `s.split(c)` on a Python string. -/
def strSplit (s : String) (c : Char) : List String :=
  (splitChars c s.data).map String.mk

/-- Leading-segment test on character lists. -/
def leadChars : List Char → List Char → Bool
  | [], _ => true
  | _ :: _, [] => false
  | x :: xs, y :: ys => x = y && leadChars xs ys

/-- `s.startswith(p)` on a Python string. -/
def strStartsWith (s p : String) : Bool := leadChars p.data s.data

/-- `node.region.split(":")` destructured as `cloud_provider, region`: in
Python this unpacking raises unless the split has exactly two parts. -/
def splitTag (tag : String) : Option (String × String) :=
  match strSplit tag ':' with
  | [p, r] => some (p, r)
  | _ => none

/-- `region.split(":")[0]`: Python returns the whole string when there is
no separator, and the split is never the empty list. -/
def providerOf (tag : String) : String :=
  (strSplit tag ':').headD ""

/-- Association-list lookup, `self.bound_nodes[n]` (`none` = `KeyError`). -/
def lookupReg : List (GatewayNode × Server) → GatewayNode → Option Server
  | [], _ => none
  | (k, v) :: rest, n => if k = n then some v else lookupReg rest n

/-- Python dict assignment `d[k] = v`: replace in place when the key is
present, append otherwise. -/
def dictInsert (m : List (GatewayNode × Server)) (k : GatewayNode) (v : Server) :
    List (GatewayNode × Server) :=
  if m.any (fun p => p.1 = k) then
    m.map (fun p => if p.1 = k then (k, v) else p)
  else
    m ++ [(k, v)]

/-- Number of gateway nodes carrying a given region tag. -/
def countNodes (nodes : List GatewayNode) (r : String) : Nat :=
  (nodes.filter (fun n => n.region = r)).length

/-- `lst.pop()` on a Python list: removes and returns the LAST element;
`none` models the `IndexError` on an empty list. -/
def popLast (l : List Server) : Option (Server × List Server) :=
  match l.getLast? with
  | none => none
  | some s => some (s, l.dropLast)

/-- The binding loop of `provision`:
`for node in gateway_nodes: self.bound_nodes[node] = servers_by_region[node.region].pop()`.
`buckets` is the `servers_by_region` defaultdict. On the `IndexError`
(empty bucket) the partial registry written so far is returned in the
error case, since the dict was mutated in place before the crash. -/
def bindLoop (buckets : String → List Server) (nodes : List GatewayNode)
    (reg : List (GatewayNode × Server)) :
    Except (List (GatewayNode × Server)) (List (GatewayNode × Server)) :=
  match nodes with
  | [] => .ok reg
  | node :: rest =>
    match popLast (buckets node.region) with
    | none => .error reg
    | some (s, b) =>
      bindLoop (fun r => if r = node.region then b else buckets r) rest
        (dictInsert reg node s)

/-- `servers_by_region` built by appending each server to its region-tag
bucket: the bucket for `r` is the subsequence of servers whose tag is `r`. -/
def serversByRegion (servers : List Server) : String → List Server :=
  fun r => servers.filter (fun s => s.region_tag = r)

/-- `getattr(self.transfer_config, f"{p}_instance_class")`; `none` models
the `AttributeError` for an unknown provider string. -/
def instanceClassOf (cfg : TransferConfig) (p : String) : Option String :=
  if p = "aws" then some cfg.aws_instance_class
  else if p = "azure" then some cfg.azure_instance_class
  else if p = "gcp" then some cfg.gcp_instance_class
  else none

/-- `getattr(self.transfer_config, f"{p}_use_spot_instances")`. -/
def useSpotOf (cfg : TransferConfig) (p : String) : Option Bool :=
  if p = "aws" then some cfg.aws_use_spot_instances
  else if p = "azure" then some cfg.azure_use_spot_instances
  else if p = "gcp" then some cfg.gcp_use_spot_instances
  else none

/-- One iteration of the `add_task` loop for a gateway node. -/
def mkTask (cfg : TransferConfig) (node : GatewayNode) : Option ProvisionTask :=
  match splitTag node.region with
  | none => none
  | some (cloud_provider, region) =>
    match instanceClassOf cfg cloud_provider, useSpotOf cfg cloud_provider with
    | some vm, some spot =>
      some ⟨cloud_provider, region, vm, spot, cfg.autoterminate_minutes⟩
    | _, _ => none

/-- The `add_task` loop over all gateway nodes: returns the tasks that
were submitted before any failure, and whether an exception was raised
(aborting the loop, the tasks already queued staying queued). -/
def addTasks (cfg : TransferConfig) : List GatewayNode → List ProvisionTask × Bool
  | [] => ([], false)
  | n :: rest =>
    match mkTask cfg n with
    | none => ([], true)
    | some t =>
      let r := addTasks cfg rest
      (t :: r.1, r.2)

/-- The `setup_args` loop of `_start_gateway` over the outgoing paths of a
node: skips non-gateway targets, looks each gateway target up in the LIVE
`self.bound_nodes` (a missing binding is a `KeyError` aborting the whole
task, hence `none`), and selects private vs public IP by the gcp-to-gcp
rule of the source. -/
def setupArgsGo (live : List (GatewayNode × Server)) (gateway_node : GatewayNode) :
    List (TopoNode × Nat) → Option (List (String × Nat))
  | [] => some []
  | (t, v) :: rest =>
    match t with
    | .other _ _ => setupArgsGo live gateway_node rest
    | .gateway n =>
      match lookupReg live n with
      | none => none
      | some s =>
        let src_provider := providerOf gateway_node.region
        let dst_provider := providerOf n.region
        let addr :=
          if src_provider = dst_provider ∧ src_provider = "gcp" then s.private_ip
          else s.public_ip
        (setupArgsGo live gateway_node rest).map (fun l => (addr, v) :: l)

/-- The full `setup_args` write sequence for one gateway node. -/
def setupArgsWrites (topo : Topology) (live : List (GatewayNode × Server))
    (gateway_node : GatewayNode) : Option (List (String × Nat)) :=
  setupArgsGo live gateway_node (topo.get_outgoing_paths gateway_node)

/-- The `start_gateway` arguments computed by `_start_gateway` for one
node: `setup_args` from the live registry, then membership in
`source_instances`/`sink_instances`, then the e2ee key gated on
`use_e2ee and (am_source or am_sink)`. -/
def startGatewayCall (topo : Topology) (cfg : TransferConfig) (docker : String)
    (live : List (GatewayNode × Server)) (key : Nat) (gateway_node : GatewayNode) :
    Option StartGatewayCall :=
  match setupArgsWrites topo live gateway_node with
  | none => none
  | some args =>
    let am_source := gateway_node ∈ topo.source_instances
    let am_sink := gateway_node ∈ topo.sink_instances
    some
      { setup_args := args
        gateway_docker_image := docker
        e2ee_key_bytes :=
          if cfg.use_e2ee ∧ (am_source ∨ am_sink) then some key else none
        use_bbr := cfg.use_bbr
        use_compression := cfg.use_compression
        use_socket_tls := cfg.use_socket_tls }

/-- The bootstrap phase: one `_start_gateway` task per entry of the
snapshot `gateway_bound_nodes = self.bound_nodes.copy()`, each reading the
LIVE registry for its peer addresses (the closure captures `self`). Tasks
run under `do_parallel` and fail independently, hence the `Option`. -/
def bootstrapCalls (topo : Topology) (cfg : TransferConfig) (docker : String)
    (live : List (GatewayNode × Server)) (key : Nat)
    (snapshot : List (GatewayNode × Server)) :
    List (GatewayNode × Server × Option StartGatewayCall) :=
  snapshot.map (fun p => (p.1, p.2, startGatewayCall topo cfg docker live key p.1))

/-- `Dataplane.provision`. The provisioner's reply is the `servers` input
(`[self.provisioner.get_node(u) for u in uuids]`); `docker` is the gateway
docker image string, `key` the fresh `e2ee_key_bytes`. Inside the lock:
already-provisioned check, provider-usage flags over `topology.nodes`,
`add_task` loop, `init_global`, `provisioner.provision`, region-bucket
binding, snapshot copy, `provisioned = True`; then the unlocked bootstrap. -/
def provision (topo : Topology) (cfg : TransferConfig) (st : DataplaneState)
    (servers : List Server) (docker : String) (key : Nat) : ProvisionOutcome :=
  if st.provisioned then
    { st := st
      eff := { tasks := [], init_global := none, provision_called := false
               errors := ["Cannot provision dataplane, already provisioned!"] }
      exn := false
      startCalls := [] }
  else
    let is_aws_used := topo.nodes.any (fun n => strStartsWith n.region "aws:")
    let is_azure_used := topo.nodes.any (fun n => strStartsWith n.region "azure:")
    let is_gcp_used := topo.nodes.any (fun n => strStartsWith n.region "gcp:")
    let tr := addTasks cfg topo.gateway_nodes
    if tr.2 then
      { st := st
        eff := { tasks := tr.1, init_global := none, provision_called := false
                 errors := [] }
        exn := true
        startCalls := [] }
    else
      match bindLoop (serversByRegion servers) topo.gateway_nodes st.bound_nodes with
      | .error regSoFar =>
        { st := { st with bound_nodes := regSoFar }
          eff := { tasks := tr.1
                   init_global := some (is_aws_used, is_azure_used, is_gcp_used)
                   provision_called := true
                   errors := [] }
          exn := true
          startCalls := [] }
      | .ok reg =>
        { st := { st with bound_nodes := reg, provisioned := true }
          eff := { tasks := tr.1
                   init_global := some (is_aws_used, is_azure_used, is_gcp_used)
                   provision_called := true
                   errors := [] }
          exn := false
          startCalls := bootstrapCalls topo cfg docker reg key reg }

/-- `Dataplane.queue_copy`: builds a `CopyJob` with the config's
requester-pays flag, appends it to `jobs_to_dispatch`, returns its uuid
(job uuids are generated by the job constructor; we take the fresh uuid
as an input). -/
def queue_copy (cfg : TransferConfig) (st : DataplaneState) (src dst : String)
    (recursive : Bool) (uuid : Nat) : DataplaneState × Nat :=
  let job : TransferJob :=
    { src := src, dst := dst, recursive := recursive
      requester_pays := cfg.requester_pays, uuid := uuid, is_sync := false }
  ({ st with jobs_to_dispatch := st.jobs_to_dispatch ++ [job] }, uuid)

/-- `Dataplane.queue_sync`: a `SyncJob` is always recursive. -/
def queue_sync (cfg : TransferConfig) (st : DataplaneState) (src dst : String)
    (uuid : Nat) : DataplaneState × Nat :=
  let job : TransferJob :=
    { src := src, dst := dst, recursive := true
      requester_pays := cfg.requester_pays, uuid := uuid, is_sync := true }
  ({ st with jobs_to_dispatch := st.jobs_to_dispatch ++ [job] }, uuid)

/-- The result of `Dataplane.run_async`: post state, the tracker handle it
returns, and the `logger.error` messages emitted. -/
structure RunAsyncResult where
  st : DataplaneState
  tracker : TransferProgressTracker
  errors : List String
deriving DecidableEq, Repr

/-- `Dataplane.run_async`: logs an error when not provisioned but then
proceeds unconditionally — constructs the tracker from the current job
queue, appends it to `pending_transfers`, starts it, rebinds
`jobs_to_dispatch` to `[]`, and returns the tracker. -/
def run_async (st : DataplaneState) : RunAsyncResult :=
  let errors :=
    if st.provisioned then []
    else ["Dataplane must be pre-provisioned. Call dataplane.provision() before starting a transfer"]
  let tracker : TransferProgressTracker := { jobs := st.jobs_to_dispatch, started := true }
  { st := { st with
            pending_transfers := st.pending_transfers ++ [tracker]
            jobs_to_dispatch := [] }
    tracker := tracker
    errors := errors }

/-- `Dataplane.source_gateways`: `[self.bound_nodes[n] for n in
topology.source_instances()] if self.provisioned else []`; `none` models a
`KeyError` in the comprehension. -/
def source_gateways (topo : Topology) (st : DataplaneState) : Option (List Server) :=
  if st.provisioned then topo.source_instances.mapM (lookupReg st.bound_nodes)
  else some []

/-- `Dataplane.sink_gateways`. -/
def sink_gateways (topo : Topology) (st : DataplaneState) : Option (List Server) :=
  if st.provisioned then topo.sink_instances.mapM (lookupReg st.bound_nodes)
  else some []

/-- Observable events of a `deprovision` call, in order: completion of the
join on the i-th pending tracker, and the `provisioner.deprovision` call. -/
inductive DeprovEvent where
  | joinDone (i : Nat)
  | teardown
deriving DecidableEq, Repr

/-- The outcome of `Dataplane.deprovision`: the ordered event trace,
whether a `KeyboardInterrupt` was re-raised to the caller, the value of
`provisioned` afterwards, and whether the not-provisioned warning and the
debug log copy happened. -/
structure DeprovisionOutcome where
  events : List DeprovEvent
  interrupted : Bool
  provisioned_after : Bool
  warned_not_provisioned : Bool
  copied_logs : Bool
deriving DecidableEq, Repr

/-- `Dataplane.deprovision`. `interrupt = some k` models a
`KeyboardInterrupt` delivered while blocked in the join on tracker `k`
(meaningful when `k < pending_transfers.length`; a later index means no
interrupt arrives during the wait). Joins run in list order inside `try`;
the `except KeyboardInterrupt` handler logs and re-raises; the `finally`
block always calls `provisioner.deprovision` and clears `provisioned`
before the exception (if any) propagates. -/
def deprovision (st : DataplaneState) (debug : Bool) (interrupt : Option Nat) :
    DeprovisionOutcome :=
  let n := st.pending_transfers.length
  let hit :=
    match interrupt with
    | none => false
    | some k => decide (k < n)
  let joined :=
    match interrupt with
    | none => n
    | some k => if k < n then k else n
  { events := ((List.range joined).map DeprovEvent.joinDone) ++ [DeprovEvent.teardown]
    interrupted := hit
    provisioned_after := false
    warned_not_provisioned := !st.provisioned
    copied_logs := debug }

/-! ### Concrete instances used by witnesses and counterexamples -/

/-- Source gateway node on AWS (scenario A of the spec). -/
def nodeA : GatewayNode := ⟨0, "aws:us-east-1"⟩

/-- Relay gateway node on GCP. -/
def nodeB : GatewayNode := ⟨1, "gcp:us-west1"⟩

/-- Sink gateway node on GCP, same region as the relay. -/
def nodeC : GatewayNode := ⟨2, "gcp:us-west1"⟩

/-- An AWS server handle. -/
def srvA : Server := ⟨10, "aws:us-east-1", "3.3.3.1", "10.0.0.1"⟩

/-- A GCP server handle. -/
def srvB : Server := ⟨11, "gcp:us-west1", "3.3.3.2", "10.0.0.2"⟩

/-- A second GCP server handle. -/
def srvC : Server := ⟨12, "gcp:us-west1", "3.3.3.3", "10.0.0.3"⟩

/-- A three-node source → relay → sink topology. -/
def topoABC : Topology where
  nodes := [.gateway nodeA, .gateway nodeB, .gateway nodeC]
  gateway_nodes := [nodeA, nodeB, nodeC]
  get_outgoing_paths := fun g =>
    if g = nodeA then [(.gateway nodeB, 1)]
    else if g = nodeB then [(.gateway nodeC, 2)]
    else []
  source_instances := [nodeA]
  sink_instances := [nodeC]

/-- A transfer configuration with end-to-end encryption enabled. -/
def cfg0 : TransferConfig where
  aws_instance_class := "m5.8xlarge"
  azure_instance_class := "Standard_D2_v5"
  gcp_instance_class := "n2-standard-16"
  aws_use_spot_instances := false
  azure_use_spot_instances := false
  gcp_use_spot_instances := true
  autoterminate_minutes := 15
  requester_pays := false
  use_e2ee := true
  use_bbr := true
  use_compression := false
  use_socket_tls := false

/-- A freshly constructed dataplane state. -/
def st0 : DataplaneState := ⟨false, [], [], []⟩

/-- A provisioned dataplane state with one bound node. -/
def stP : DataplaneState := ⟨true, [(nodeA, srvA)], [], []⟩

/-- A queued copy job. -/
def jobX : TransferJob := ⟨"s3://bucket/a", "gs://bucket/b", true, false, 7, false⟩

/-- An unprovisioned state with a partially populated registry and one
queued job. -/
def stUn : DataplaneState := ⟨false, [(nodeA, srvA)], [jobX], []⟩

/-- Two registries give the same lookup result for a topology node that is
a gateway (trivially true for non-gateway targets, which the bootstrap
skips). Used to state which live-registry mutations are invisible to the
bootstrap work. -/
def peerLookupAgrees (live1 live2 : List (GatewayNode × Server)) : TopoNode → Bool
  | .gateway g => decide (lookupReg live1 g = lookupReg live2 g)
  | .other _ _ => true

/-- The registry binding the three-node topology to its three servers. -/
def liveABC : List (GatewayNode × Server) := [(nodeA, srvA), (nodeB, srvB), (nodeC, srvC)]

/-- An alternative server handle for the sink node, with different IPs. -/
def srvC2 : Server := ⟨13, "gcp:us-west1", "9.9.9.9", "10.9.9.9"⟩

/-- The registry `liveABC` after a mutation rebinding the sink node. -/
def liveMut : List (GatewayNode × Server) := [(nodeA, srvA), (nodeB, srvB), (nodeC, srvC2)]

/-- Gateway node in region `aws:r1`. -/
def nodeR1 : GatewayNode := ⟨101, "aws:r1"⟩

/-- Gateway node in region `aws:r2`. -/
def nodeR2 : GatewayNode := ⟨102, "aws:r2"⟩

/-- Gateway node in region `gcp:r3`. -/
def nodeR3 : GatewayNode := ⟨103, "gcp:r3"⟩

/-- Gateway node in region `gcp:r4`. -/
def nodeR4 : GatewayNode := ⟨104, "gcp:r4"⟩

/-- A four-node topology spanning four distinct regions. -/
def topoFour : Topology where
  nodes := [.gateway nodeR1, .gateway nodeR2, .gateway nodeR3, .gateway nodeR4]
  gateway_nodes := [nodeR1, nodeR2, nodeR3, nodeR4]
  get_outgoing_paths := fun _ => []
  source_instances := [nodeR1]
  sink_instances := [nodeR4]

/-- Server provisioned in `aws:r1`. -/
def srvR1 : Server := ⟨21, "aws:r1", "1.1.1.1", "10.1.1.1"⟩

/-- Server provisioned in `aws:r2`. -/
def srvR2 : Server := ⟨22, "aws:r2", "1.1.1.2", "10.1.1.2"⟩

/-- Server provisioned in `gcp:r3`. -/
def srvR3 : Server := ⟨23, "gcp:r3", "1.1.1.3", "10.1.1.3"⟩

/-! ### Theorems -/

/-- C8: calling `provision` a second time while the dataplane is already
provisioned is a reported no-op, not an exception: the second call reports
an error, submits no provisioning tasks, calls neither `init_global` nor
the provisioner's `provision` (so no second VM fleet), and leaves the
whole state — bound-node registry and provisioned flag included —
unchanged. -/
theorem C8_double_provision_reported_noop (topo : Topology) (cfg : TransferConfig)
    (st : DataplaneState) (servers : List Server) (docker : String) (key : Nat)
    (h : st.provisioned = true) :
    (provision topo cfg st servers docker key).st = st ∧
    (provision topo cfg st servers docker key).eff.tasks = [] ∧
    (provision topo cfg st servers docker key).eff.init_global = none ∧
    (provision topo cfg st servers docker key).eff.provision_called = false ∧
    (provision topo cfg st servers docker key).eff.errors =
      ["Cannot provision dataplane, already provisioned!"] ∧
    (provision topo cfg st servers docker key).exn = false ∧
    (provision topo cfg st servers docker key).startCalls = [] := by
  simp [provision, h]

/-- Witness for C8 at a concrete provisioned state. -/
theorem C8_double_provision_reported_noop_witness :
    (provision topoABC cfg0 stP [srvA] "img" 0).st = stP ∧
    (provision topoABC cfg0 stP [srvA] "img" 0).eff.tasks = [] ∧
    (provision topoABC cfg0 stP [srvA] "img" 0).eff.provision_called = false :=
  ⟨(C8_double_provision_reported_noop topoABC cfg0 stP [srvA] "img" 0 rfl).1,
   (C8_double_provision_reported_noop topoABC cfg0 stP [srvA] "img" 0 rfl).2.1,
   (C8_double_provision_reported_noop topoABC cfg0 stP [srvA] "img" 0 rfl).2.2.2.1⟩

/-- C10: for every dataplane whose provisioned flag is false,
`source_gateways` and `sink_gateways` return the empty list without
consulting the bound-node registry (no lookup failure is possible,
whatever the registry holds). -/
theorem C10_gateways_empty_when_unprovisioned (topo : Topology) (st : DataplaneState)
    (h : st.provisioned = false) :
    source_gateways topo st = some [] ∧ sink_gateways topo st = some [] := by
  simp [source_gateways, sink_gateways, h]

/-- Witness for C10 at a concrete unprovisioned state whose registry is
only partially populated. -/
theorem C10_gateways_empty_when_unprovisioned_witness :
    source_gateways topoABC stUn = some [] ∧ sink_gateways topoABC stUn = some [] :=
  C10_gateways_empty_when_unprovisioned topoABC stUn rfl

/-- C2 counterexample: at a concrete unprovisioned state with one queued
job, `run_async` is NOT a no-op — a tracker is created and started, the
pending-transfer list is extended, and the job queue is cleared (while the
error is indeed reported). This refutes the claim that the operation
becomes a no-op with no tracker created, the pending list unchanged and
the queue unchanged. -/
theorem C2_counterexample :
    stUn.provisioned = false ∧
    (run_async stUn).errors ≠ [] ∧
    (run_async stUn).st.pending_transfers ≠ stUn.pending_transfers ∧
    (run_async stUn).st.jobs_to_dispatch ≠ stUn.jobs_to_dispatch ∧
    (run_async stUn).tracker.started = true := by
  refine ⟨rfl, ?_, ?_, ?_, rfl⟩ <;> decide

/-- C2 amended: calling `run_async` while the dataplane is not provisioned
reports an error to the operator and no exception propagates, but the
operation is NOT a no-op: the tracker is still created over the queued
jobs and started, it is appended to the pending-transfer list, and the job
queue is cleared — exactly as in the provisioned case. -/
theorem C2_run_async_unprovisioned_reports_but_proceeds (st : DataplaneState)
    (h : st.provisioned = false) :
    (run_async st).errors =
      ["Dataplane must be pre-provisioned. Call dataplane.provision() before starting a transfer"] ∧
    (run_async st).tracker = ⟨st.jobs_to_dispatch, true⟩ ∧
    (run_async st).st.pending_transfers = st.pending_transfers ++ [(run_async st).tracker] ∧
    (run_async st).st.jobs_to_dispatch = [] ∧
    (run_async st).st.provisioned = st.provisioned ∧
    (run_async st).st.bound_nodes = st.bound_nodes := by
  simp [run_async, h]

/-- Witness for the amended C2 at a concrete unprovisioned state. -/
theorem C2_run_async_unprovisioned_reports_but_proceeds_witness :
    (run_async stUn).errors ≠ [] ∧
    (run_async stUn).tracker = ⟨[jobX], true⟩ ∧
    (run_async stUn).st.jobs_to_dispatch = [] := by
  have h := C2_run_async_unprovisioned_reports_but_proceeds stUn rfl
  exact ⟨by rw [h.1]; decide, h.2.1, h.2.2.2.1⟩

/-- C9: with the dataplane provisioned and an initially empty queue,
calling `queue_copy` three times and then `run_async` creates a started
tracker bound to exactly those three jobs in queue order, registers it at
the end of the pending-transfer list, reports no error, and leaves the job
queue empty immediately after `run_async` returns. -/
theorem C9_queue_three_then_dispatch (cfg : TransferConfig) (st : DataplaneState)
    (h : st.provisioned = true) (h0 : st.jobs_to_dispatch = [])
    (s1 d1 s2 d2 s3 d3 : String) (r1 r2 r3 : Bool) (u1 u2 u3 : Nat) :
    (run_async (queue_copy cfg (queue_copy cfg (queue_copy cfg st s1 d1 r1 u1).1
        s2 d2 r2 u2).1 s3 d3 r3 u3).1).tracker =
      ⟨[⟨s1, d1, r1, cfg.requester_pays, u1, false⟩,
        ⟨s2, d2, r2, cfg.requester_pays, u2, false⟩,
        ⟨s3, d3, r3, cfg.requester_pays, u3, false⟩], true⟩ ∧
    (run_async (queue_copy cfg (queue_copy cfg (queue_copy cfg st s1 d1 r1 u1).1
        s2 d2 r2 u2).1 s3 d3 r3 u3).1).st.pending_transfers =
      st.pending_transfers ++
        [(run_async (queue_copy cfg (queue_copy cfg (queue_copy cfg st s1 d1 r1 u1).1
            s2 d2 r2 u2).1 s3 d3 r3 u3).1).tracker] ∧
    (run_async (queue_copy cfg (queue_copy cfg (queue_copy cfg st s1 d1 r1 u1).1
        s2 d2 r2 u2).1 s3 d3 r3 u3).1).st.jobs_to_dispatch = [] ∧
    (run_async (queue_copy cfg (queue_copy cfg (queue_copy cfg st s1 d1 r1 u1).1
        s2 d2 r2 u2).1 s3 d3 r3 u3).1).errors = [] := by
  simp [run_async, queue_copy, h, h0]

/-- Witness for C9 at a concrete provisioned state and three concrete
copy requests. -/
theorem C9_queue_three_then_dispatch_witness :
    (run_async (queue_copy cfg0 (queue_copy cfg0 (queue_copy cfg0 stP "a" "b" true 1).1
        "c" "d" false 2).1 "e" "f" true 3).1).tracker =
      ⟨[⟨"a", "b", true, false, 1, false⟩,
        ⟨"c", "d", false, false, 2, false⟩,
        ⟨"e", "f", true, false, 3, false⟩], true⟩ ∧
    (run_async (queue_copy cfg0 (queue_copy cfg0 (queue_copy cfg0 stP "a" "b" true 1).1
        "c" "d" false 2).1 "e" "f" true 3).1).st.jobs_to_dispatch = [] := by
  have h := C9_queue_three_then_dispatch cfg0 stP rfl rfl "a" "b" "c" "d" "e" "f"
    true false true 1 2 3
  exact ⟨h.1, h.2.2.1⟩

/-- In a trace of join completions followed by the teardown call, the
teardown call occurs exactly once. -/
theorem count_teardown_joins_concat (l : List Nat) :
    (((l.map DeprovEvent.joinDone) ++ [DeprovEvent.teardown]).count DeprovEvent.teardown) = 1 := by
  rw [List.count_append]
  have h0 : ((l.map DeprovEvent.joinDone).count DeprovEvent.teardown) = 0 := by
    rw [List.count_eq_zero]
    simp
  rw [h0]
  rfl

/-- C7: `deprovision` joins every tracker present in the pending-transfer
list at call time, in list order, and only then invokes the underlying
provisioner teardown (the trace with no interruption is exactly the joins
in order followed by the teardown); the teardown executes exactly once in
every trace and is the last event; if an interruption arrives during the
wait on tracker `k`, the teardown still executes (after the joins that
completed) and the provisioned flag is cleared before the interruption is
re-raised to the caller. -/
theorem C7_drain_before_teardown (st : DataplaneState) (debug : Bool)
    (interrupt : Option Nat) :
    ((deprovision st debug interrupt).events.count DeprovEvent.teardown = 1) ∧
    ((deprovision st debug interrupt).events.getLast? = some DeprovEvent.teardown) ∧
    ((deprovision st debug interrupt).provisioned_after = false) ∧
    (interrupt = none →
      (deprovision st debug interrupt).events =
        ((List.range st.pending_transfers.length).map DeprovEvent.joinDone) ++
          [DeprovEvent.teardown] ∧
      (deprovision st debug interrupt).interrupted = false) ∧
    (∀ k, interrupt = some k → k < st.pending_transfers.length →
      (deprovision st debug interrupt).events =
        ((List.range k).map DeprovEvent.joinDone) ++ [DeprovEvent.teardown] ∧
      (deprovision st debug interrupt).interrupted = true) := by
  refine ⟨?_, ?_, rfl, ?_, ?_⟩
  · exact count_teardown_joins_concat _
  · simp [deprovision]
  · intro h
    subst h
    simp [deprovision]
  · intro k h hk
    subst h
    simp [deprovision, hk]

/-- Witness for C7: an interruption delivered during the wait on the first
(still running) tracker of a concrete state still yields exactly one
teardown call, with the interruption re-raised afterwards. -/
theorem C7_drain_before_teardown_witness :
    ((deprovision ⟨true, [], [], [⟨[jobX], true⟩]⟩ false (some 0)).events.count
        DeprovEvent.teardown = 1) ∧
    ((deprovision ⟨true, [], [], [⟨[jobX], true⟩]⟩ false (some 0)).events =
      [DeprovEvent.teardown]) ∧
    ((deprovision ⟨true, [], [], [⟨[jobX], true⟩]⟩ false (some 0)).interrupted = true) ∧
    ((deprovision ⟨true, [], [], [⟨[jobX], true⟩]⟩ false (some 0)).provisioned_after
      = false) := by
  have h := C7_drain_before_teardown ⟨true, [], [], [⟨[jobX], true⟩]⟩ false (some 0)
  have h5 := h.2.2.2.2 0 rfl (by decide)
  exact ⟨h.1, by rw [h5.1]; rfl, h5.2, h.2.2.1⟩

/-- Membership in the `setup_args` write sequence: each gateway-target
edge whose destination is bound contributes the destination's private IP
when source and destination providers are equal and gcp, else its public
IP. -/
theorem setupArgsGo_mem (live : List (GatewayNode × Server)) (node : GatewayNode)
    (l : List (TopoNode × Nat)) (args : List (String × Nat)) (n : GatewayNode)
    (v : Nat) (s : Server)
    (hgo : setupArgsGo live node l = some args)
    (hmem : (TopoNode.gateway n, v) ∈ l)
    (hb : lookupReg live n = some s) :
    ((providerOf node.region = providerOf n.region ∧ providerOf node.region = "gcp") →
      (s.private_ip, v) ∈ args) ∧
    (¬(providerOf node.region = providerOf n.region ∧ providerOf node.region = "gcp") →
      (s.public_ip, v) ∈ args) := by
  induction l generalizing args with
  | nil => cases hmem
  | cons hd tl ih =>
    obtain ⟨t, w⟩ := hd
    cases t with
    | other o r =>
      rw [setupArgsGo] at hgo
      rcases List.mem_cons.1 hmem with hh | ht
      · exact absurd hh (by simp)
      · exact ih args hgo ht
    | gateway m =>
      cases hlm : lookupReg live m with
      | none =>
        simp only [setupArgsGo, hlm] at hgo
        exact Option.noConfusion hgo
      | some sm =>
        cases hgo' : setupArgsGo live node tl with
        | none =>
          simp only [setupArgsGo, hlm, hgo'] at hgo
          exact Option.noConfusion hgo
        | some rest =>
          simp only [setupArgsGo, hlm, hgo', Option.map_some', Option.some.injEq] at hgo
          rcases List.mem_cons.1 hmem with hh | ht
          · have hmn : n = m := by
              have := congrArg Prod.fst hh
              simpa using this
            have hwv : v = w := congrArg Prod.snd hh
            subst hmn
            subst hwv
            have hsm : sm = s := by
              rw [hlm] at hb
              exact Option.some.inj hb
            subst hsm
            constructor
            · intro hc
              rw [← hgo]
              rw [if_pos hc]
              exact List.mem_cons_self _ _
            · intro hc
              rw [← hgo]
              rw [if_neg hc]
              exact List.mem_cons_self _ _
          · have hih := ih rest hgo' ht
            constructor
            · intro hc
              rw [← hgo]
              exact List.mem_cons_of_mem _ (hih.1 hc)
            · intro hc
              rw [← hgo]
              exact List.mem_cons_of_mem _ (hih.2 hc)

/-- C5: during gateway bootstrap, for every outgoing edge of a node whose
target is a bound gateway node, the write to the peer-address map selects
the destination's private address when source and destination are both on
GCP (the provider with private fast-path networking), and the
destination's public address for any other provider pairing. -/
theorem C5_private_link_preference (topo : Topology)
    (live : List (GatewayNode × Server)) (node : GatewayNode)
    (args : List (String × Nat)) (n : GatewayNode) (v : Nat) (s : Server)
    (hargs : setupArgsWrites topo live node = some args)
    (hedge : (TopoNode.gateway n, v) ∈ topo.get_outgoing_paths node)
    (hb : lookupReg live n = some s) :
    ((providerOf node.region = "gcp" ∧ providerOf n.region = "gcp") →
      (s.private_ip, v) ∈ args) ∧
    (¬(providerOf node.region = "gcp" ∧ providerOf n.region = "gcp") →
      (s.public_ip, v) ∈ args) := by
  have h := setupArgsGo_mem live node (topo.get_outgoing_paths node) args n v s hargs
    hedge hb
  constructor
  · intro hc
    exact h.1 ⟨hc.1.trans hc.2.symm, hc.1⟩
  · intro hc
    apply h.2
    intro hcc
    exact hc ⟨hcc.2, hcc.1.symm.trans hcc.2⟩

/-- Witness for C5: in the concrete three-node dataplane, the gcp relay's
edge to the gcp sink selects the sink's private IP, while the aws source's
edge to the gcp relay selects the relay's public IP. -/
theorem C5_private_link_preference_witness :
    (srvC.private_ip, 2) ∈ [("10.0.0.3", 2)] ∧
    (srvB.public_ip, 1) ∈ [("3.3.3.2", 1)] :=
  ⟨(C5_private_link_preference topoABC liveABC nodeB [("10.0.0.3", 2)] nodeC 2 srvC
      (by decide) (by decide) (by decide)).1 (by decide),
   (C5_private_link_preference topoABC liveABC nodeA [("3.3.3.2", 1)] nodeB 1 srvB
      (by decide) (by decide) (by decide)).2 (by decide)⟩

/-- C6: the `start_gateway` call computed for a gateway node that is
neither a source nor a sink of the topology carries no end-to-end
encryption key (the key argument is `None`), even when end-to-end
encryption is enabled in the transfer configuration; conversely the key is
supplied exactly when end-to-end encryption is enabled and the node is a
source or a sink. -/
theorem C6_endpoint_only_key (topo : Topology) (cfg : TransferConfig) (docker : String)
    (live : List (GatewayNode × Server)) (key : Nat) (node : GatewayNode)
    (c : StartGatewayCall)
    (h : startGatewayCall topo cfg docker live key node = some c) :
    (node ∉ topo.source_instances → node ∉ topo.sink_instances →
      c.e2ee_key_bytes = none) ∧
    (c.e2ee_key_bytes = some key ↔
      (cfg.use_e2ee = true ∧
        (node ∈ topo.source_instances ∨ node ∈ topo.sink_instances))) := by
  cases hs : setupArgsWrites topo live node with
  | none =>
    simp only [startGatewayCall, hs] at h
    exact Option.noConfusion h
  | some args =>
    simp only [startGatewayCall, hs, Option.some.injEq] at h
    have he : c.e2ee_key_bytes =
        if cfg.use_e2ee ∧ (node ∈ topo.source_instances ∨ node ∈ topo.sink_instances)
        then some key else none := by
      rw [← h]
    by_cases hcond :
        cfg.use_e2ee = true ∧ (node ∈ topo.source_instances ∨ node ∈ topo.sink_instances)
    · rw [if_pos hcond] at he
      constructor
      · intro hsrc hsink
        rcases hcond.2 with hc | hc
        · exact absurd hc hsrc
        · exact absurd hc hsink
      · rw [he]
        exact ⟨fun _ => hcond, fun _ => rfl⟩
    · rw [if_neg hcond] at he
      constructor
      · intro _ _
        exact he
      · rw [he]
        constructor
        · intro hx
          exact Option.noConfusion hx
        · intro hx
          exact absurd hx hcond

/-- Witness for C6: in the concrete dataplane with e2ee enabled, the relay
node (neither source nor sink) gets no key while the source node gets the
key. -/
theorem C6_endpoint_only_key_witness :
    nodeB ∉ topoABC.source_instances ∧ nodeB ∉ topoABC.sink_instances ∧
    cfg0.use_e2ee = true ∧
    (StartGatewayCall.mk [("10.0.0.3", 2)] "img" none true false false).e2ee_key_bytes
      = none ∧
    (StartGatewayCall.mk [("3.3.3.2", 1)] "img" (some 99) true false
      false).e2ee_key_bytes = some 99 :=
  ⟨by decide, by decide, rfl,
   (C6_endpoint_only_key topoABC cfg0 "img" liveABC 99 nodeB
      (StartGatewayCall.mk [("10.0.0.3", 2)] "img" none true false false)
      (by decide)).1 (by decide) (by decide),
   (C6_endpoint_only_key topoABC cfg0 "img" liveABC 99 nodeA
      (StartGatewayCall.mk [("3.3.3.2", 1)] "img" (some 99) true false false)
      (by decide)).2.2 ⟨rfl, Or.inl (by decide)⟩⟩

/-- The `setup_args` computation depends on the live registry only through
the lookups of the gateway targets of the node's outgoing edges. -/
theorem setupArgsGo_congr (live1 live2 : List (GatewayNode × Server))
    (node : GatewayNode) (l : List (TopoNode × Nat))
    (hagree : ∀ q ∈ l, peerLookupAgrees live1 live2 q.1 = true) :
    setupArgsGo live1 node l = setupArgsGo live2 node l := by
  induction l with
  | nil => rfl
  | cons hd tl ih =>
    obtain ⟨t, w⟩ := hd
    have htl : ∀ q ∈ tl, peerLookupAgrees live1 live2 q.1 = true :=
      fun q hq => hagree q (List.mem_cons_of_mem _ hq)
    cases t with
    | other o r =>
      rw [setupArgsGo, setupArgsGo]
      exact ih htl
    | gateway m =>
      have hm : lookupReg live1 m = lookupReg live2 m := by
        have := hagree (TopoNode.gateway m, w) (List.mem_cons_self _ _)
        exact of_decide_eq_true this
      rw [setupArgsGo, setupArgsGo, ← hm]
      cases lookupReg live1 m with
      | none => rfl
      | some sm => rw [ih htl]

/-- C3 counterexample: the claim that the peer-address maps passed to the
start-gateway calls are fully determined by the snapshot taken under the
lock (two-run noninterference in the live registry) is false: with the
snapshot fixed, rebinding the sink node in the live registry changes the
relay's start-gateway arguments, because `_start_gateway` reads the live
`self.bound_nodes`, not its snapshot copy. -/
theorem C3_counterexample :
    bootstrapCalls topoABC cfg0 "img" liveABC 99 liveABC ≠
      bootstrapCalls topoABC cfg0 "img" liveMut 99 liveABC := by
  decide

/-- C3 amended: the set of (node, server) pairs the bootstrap issues
start-gateway commands to is fully determined by the snapshot, but the
peer-address maps read the LIVE registry: the start-gateway arguments are
unchanged only under mutations of the live registry that preserve the
lookups of every gateway target of the snapshot nodes' outgoing edges
(and, as the counterexample shows, a mutation rebinding such a target does
change them). -/
theorem C3_bootstrap_reads_live_registry (topo : Topology) (cfg : TransferConfig)
    (docker : String) (key : Nat)
    (snapshot live1 live2 : List (GatewayNode × Server))
    (hagree : ∀ p ∈ snapshot, ∀ q ∈ topo.get_outgoing_paths p.1,
      peerLookupAgrees live1 live2 q.1 = true) :
    bootstrapCalls topo cfg docker live1 key snapshot =
      bootstrapCalls topo cfg docker live2 key snapshot ∧
    (bootstrapCalls topo cfg docker live1 key snapshot).map (fun x => (x.1, x.2.1))
      = snapshot := by
  constructor
  · rw [bootstrapCalls, bootstrapCalls]
    apply List.map_congr_left
    intro p hp
    have hse : setupArgsWrites topo live1 p.1 = setupArgsWrites topo live2 p.1 := by
      rw [setupArgsWrites, setupArgsWrites]
      exact setupArgsGo_congr live1 live2 p.1 _ (hagree p hp)
    rw [startGatewayCall, startGatewayCall, hse]
  · rw [bootstrapCalls, List.map_map]
    have h : ∀ x ∈ snapshot,
        ((fun x => (x.1, x.2.1)) ∘ fun p =>
          (p.1, p.2, startGatewayCall topo cfg docker live1 key p.1)) x = id x :=
      fun x _ => rfl
    rw [List.map_congr_left h, List.map_id]

/-- Witness for the amended C3: appending a binding for a node that is not
a peer of any snapshot node leaves all start-gateway arguments unchanged. -/
theorem C3_bootstrap_reads_live_registry_witness :
    bootstrapCalls topoABC cfg0 "img" liveABC 99 liveABC =
      bootstrapCalls topoABC cfg0 "img" (liveABC ++ [(nodeR1, srvR1)]) 99 liveABC ∧
    (bootstrapCalls topoABC cfg0 "img" liveABC 99 liveABC).map (fun x => (x.1, x.2.1))
      = liveABC :=
  (C3_bootstrap_reads_live_registry topoABC cfg0 "img" 99 liveABC liveABC
    (liveABC ++ [(nodeR1, srvR1)]) (by decide))

/-- Facts extracted from a successful Python `pop()`: the list was
nonempty, the remainder is `dropLast`, and the popped element was in the
list. -/
theorem popLast_some (l : List Server) (s : Server) (b : List Server)
    (h : popLast l = some (s, b)) : l ≠ [] ∧ b = l.dropLast ∧ s ∈ l := by
  rw [popLast] at h
  cases hg : l.getLast? with
  | none =>
    rw [hg] at h
    exact Option.noConfusion h
  | some x =>
    rw [hg] at h
    have hx := Option.some.inj h
    have hs : x = s := congrArg Prod.fst hx
    subst hs
    have hb : b = l.dropLast := (congrArg Prod.snd hx).symm
    refine ⟨?_, hb, List.mem_of_getLast?_eq_some hg⟩
    intro hnil
    subst hnil
    exact Option.noConfusion hg

/-- Counting nodes of a region over a cons. -/
theorem countNodes_cons (node : GatewayNode) (rest : List GatewayNode) (r : String) :
    countNodes (node :: rest) r =
      (if node.region = r then 1 else 0) + countNodes rest r := by
  simp only [countNodes, List.filter_cons]
  by_cases h : node.region = r
  · simp [h, Nat.add_comm]
  · simp [h]

/-- If the binding loop succeeds then every region had at least as many
servers in its bucket as it has gateway nodes. -/
theorem bindLoop_ok_counts (nodes : List GatewayNode) (buckets : String → List Server)
    (reg reg' : List (GatewayNode × Server))
    (h : bindLoop buckets nodes reg = .ok reg') (r : String) :
    countNodes nodes r ≤ (buckets r).length := by
  induction nodes generalizing buckets reg with
  | nil => simp [countNodes]
  | cons node rest ih =>
    rw [bindLoop] at h
    cases hpop : popLast (buckets node.region) with
    | none =>
      rw [hpop] at h
      exact Except.noConfusion h
    | some p =>
      obtain ⟨s, b⟩ := p
      rw [hpop] at h
      obtain ⟨hne, hb, hsmem⟩ := popLast_some _ _ _ hpop
      have hc : countNodes rest r ≤ (if r = node.region then b else buckets r).length :=
        ih _ _ h
      rw [countNodes_cons]
      by_cases hr : node.region = r
      · subst hr
        rw [if_pos rfl]
        rw [if_pos rfl] at hc
        have hlen : b.length = (buckets node.region).length - 1 := by
          rw [hb, List.length_dropLast]
        have hpos : 0 < (buckets node.region).length := List.length_pos.2 hne
        omega
      · rw [if_neg hr]
        rw [if_neg (fun he => hr he.symm)] at hc
        omega

/-- The keys of a Python dict after an assignment. -/
theorem dictInsert_map_fst (m : List (GatewayNode × Server)) (k : GatewayNode)
    (v : Server) :
    (dictInsert m k v).map Prod.fst =
      if m.any (fun p => p.1 = k) then m.map Prod.fst else m.map Prod.fst ++ [k] := by
  rw [dictInsert]
  by_cases hk : (m.any (fun p => p.1 = k)) = true
  · rw [if_pos hk, if_pos hk, List.map_map]
    apply List.map_congr_left
    intro p hp
    by_cases h : p.1 = k
    · simp [Function.comp, h]
    · simp [Function.comp, h]
  · rw [if_neg hk, if_neg hk]
    simp

/-- Dict assignment preserves distinctness of the keys. -/
theorem dictInsert_nodup (m : List (GatewayNode × Server)) (k : GatewayNode) (v : Server)
    (h : (m.map Prod.fst).Nodup) : ((dictInsert m k v).map Prod.fst).Nodup := by
  rw [dictInsert_map_fst]
  by_cases hk : (m.any (fun p => p.1 = k)) = true
  · rw [if_pos hk]
    exact h
  · rw [if_neg hk]
    rw [List.nodup_append]
    refine ⟨h, List.nodup_singleton _, ?_⟩
    intro a ha hb
    rw [List.mem_singleton] at hb
    subst hb
    obtain ⟨p, hp, hpk⟩ := List.mem_map.1 ha
    apply hk
    rw [List.any_eq_true]
    exact ⟨p, hp, by simp [hpk]⟩

/-- The assigned key is a key of the dict afterwards. -/
theorem dictInsert_mem_fst (m : List (GatewayNode × Server)) (k : GatewayNode)
    (v : Server) : k ∈ (dictInsert m k v).map Prod.fst := by
  rw [dictInsert_map_fst]
  by_cases hk : (m.any (fun p => p.1 = k)) = true
  · rw [if_pos hk]
    rw [List.any_eq_true] at hk
    obtain ⟨p, hp, hpk⟩ := hk
    rw [List.mem_map]
    exact ⟨p, hp, of_decide_eq_true hpk⟩
  · rw [if_neg hk]
    exact List.mem_append.2 (Or.inr (List.mem_singleton.2 rfl))

/-- Dict assignment never removes keys. -/
theorem dictInsert_mem_fst_mono (m : List (GatewayNode × Server)) (k : GatewayNode)
    (v : Server) (a : GatewayNode) (h : a ∈ m.map Prod.fst) :
    a ∈ (dictInsert m k v).map Prod.fst := by
  rw [dictInsert_map_fst]
  by_cases hk : (m.any (fun p => p.1 = k)) = true
  · rw [if_pos hk]
    exact h
  · rw [if_neg hk]
    exact List.mem_append.2 (Or.inl h)

/-- Every entry of a dict after an assignment is either an old entry or
the assigned pair. -/
theorem dictInsert_forall (m : List (GatewayNode × Server)) (k : GatewayNode) (v : Server)
    (P : GatewayNode × Server → Prop) (hm : ∀ p ∈ m, P p) (hkv : P (k, v)) :
    ∀ p ∈ dictInsert m k v, P p := by
  intro p hp
  rw [dictInsert] at hp
  by_cases hk : (m.any (fun q => q.1 = k)) = true
  · rw [if_pos hk] at hp
    obtain ⟨q, hq, hpq⟩ := List.mem_map.1 hp
    by_cases h : q.1 = k
    · rw [if_pos h] at hpq
      exact hpq ▸ hkv
    · rw [if_neg h] at hpq
      exact hpq ▸ hm q hq
  · rw [if_neg hk] at hp
    rcases List.mem_append.1 hp with h | h
    · exact hm p h
    · rw [List.mem_singleton.1 h]
      exact hkv

/-- Success of the binding loop: if every region's bucket holds at least
as many servers as it has nodes, and every bucket only holds servers of
its own region, then the loop succeeds and produces a registry with
distinct keys containing every node, in which each node's server carries
the node's own region tag. -/
theorem bindLoop_ok_of_counts (nodes : List GatewayNode) (buckets : String → List Server)
    (reg : List (GatewayNode × Server))
    (hcount : ∀ r, countNodes nodes r ≤ (buckets r).length)
    (hbuck : ∀ r s, s ∈ buckets r → s.region_tag = r)
    (hnodup : (reg.map Prod.fst).Nodup)
    (hreg : ∀ p ∈ reg, p.2.region_tag = p.1.region) :
    ∃ reg', bindLoop buckets nodes reg = .ok reg' ∧
      (reg'.map Prod.fst).Nodup ∧
      (∀ p ∈ reg', p.2.region_tag = p.1.region) ∧
      (∀ n ∈ nodes, n ∈ reg'.map Prod.fst) ∧
      (∀ a ∈ reg.map Prod.fst, a ∈ reg'.map Prod.fst) := by
  induction nodes generalizing buckets reg with
  | nil => exact ⟨reg, rfl, hnodup, hreg, by simp, fun a ha => ha⟩
  | cons node rest ih =>
    have hpos : 0 < (buckets node.region).length := by
      have := hcount node.region
      rw [countNodes_cons, if_pos rfl] at this
      omega
    cases hpop : popLast (buckets node.region) with
    | none =>
      rw [popLast] at hpop
      cases hg : (buckets node.region).getLast? with
      | none =>
        rw [List.getLast?_eq_none_iff] at hg
        rw [hg] at hpos
        simp at hpos
      | some x =>
        rw [hg] at hpop
        exact Option.noConfusion hpop
    | some p =>
      obtain ⟨s, b⟩ := p
      obtain ⟨hne, hb, hsmem⟩ := popLast_some _ _ _ hpop
      have hs : s.region_tag = node.region := hbuck _ _ hsmem
      have hcount' : ∀ r, countNodes rest r ≤
          ((fun r' => if r' = node.region then b else buckets r') r).length := by
        intro r
        show countNodes rest r ≤ (if r = node.region then b else buckets r).length
        have hcr := hcount r
        rw [countNodes_cons] at hcr
        by_cases hr : r = node.region
        · subst hr
          rw [if_pos rfl]
          rw [if_pos rfl] at hcr
          have hlen : b.length = (buckets node.region).length - 1 := by
            rw [hb, List.length_dropLast]
          omega
        · rw [if_neg hr]
          rw [if_neg (fun he => hr he.symm)] at hcr
          omega
      have hbuck' : ∀ r s', s' ∈ (fun r' => if r' = node.region then b else buckets r') r →
          s'.region_tag = r := by
        intro r s' hmem
        have hmem' : s' ∈ (if r = node.region then b else buckets r) := hmem
        by_cases hr : r = node.region
        · rw [if_pos hr] at hmem'
          rw [hr]
          exact hbuck _ _ ((List.dropLast_sublist (buckets node.region)).subset
            (hb ▸ hmem'))
        · rw [if_neg hr] at hmem'
          exact hbuck _ _ hmem'
      have hnodup' := dictInsert_nodup reg node s hnodup
      have hreg' := dictInsert_forall reg node s (fun p => p.2.region_tag = p.1.region)
        hreg hs
      obtain ⟨reg', hok, hnd, hrp, hmem1, hmem2⟩ := ih _ _ hcount' hbuck' hnodup' hreg'
      refine ⟨reg', ?_, hnd, hrp, ?_, ?_⟩
      · rw [bindLoop, hpop]
        exact hok
      · intro n hn
        rcases List.mem_cons.1 hn with hcase | hcase
        · subst hcase
          exact hmem2 _ (dictInsert_mem_fst reg n s)
        · exact hmem1 n hcase
      · intro a ha
        exact hmem2 a (dictInsert_mem_fst_mono reg node s a ha)

/-- A positive region count exhibits a node of that region. -/
theorem countNodes_pos_mem (nodes : List GatewayNode) (r : String)
    (h : 0 < countNodes nodes r) : ∃ n ∈ nodes, n.region = r := by
  rw [countNodes, List.length_pos] at h
  obtain ⟨n, hn⟩ := List.exists_mem_of_ne_nil _ h
  have hm := List.mem_filter.1 hn
  exact ⟨n, hm.1, of_decide_eq_true hm.2⟩

/-- Unfolding `provision` when not yet provisioned, the task loop
succeeds, and the binding loop succeeds. -/
theorem provision_bind_ok (topo : Topology) (cfg : TransferConfig) (st : DataplaneState)
    (servers : List Server) (docker : String) (key : Nat)
    (reg' : List (GatewayNode × Server))
    (h : st.provisioned = false)
    (ht : (addTasks cfg topo.gateway_nodes).2 = false)
    (hok : bindLoop (serversByRegion servers) topo.gateway_nodes st.bound_nodes =
      .ok reg') :
    (provision topo cfg st servers docker key).exn = false ∧
    (provision topo cfg st servers docker key).st.provisioned = true ∧
    (provision topo cfg st servers docker key).st.bound_nodes = reg' ∧
    (provision topo cfg st servers docker key).startCalls =
      bootstrapCalls topo cfg docker reg' key reg' := by
  rw [provision, h]
  simp only [Bool.false_eq_true, if_false, ht, hok]
  exact ⟨trivial, trivial, trivial, trivial⟩

/-- Unfolding `provision` when not yet provisioned, the task loop
succeeds, but the binding loop raises: the exception propagates, the
partially written registry stays, the flag stays false, and no gateway is
started. -/
theorem provision_bind_error (topo : Topology) (cfg : TransferConfig)
    (st : DataplaneState) (servers : List Server) (docker : String) (key : Nat)
    (regSoFar : List (GatewayNode × Server))
    (h : st.provisioned = false)
    (ht : (addTasks cfg topo.gateway_nodes).2 = false)
    (herr : bindLoop (serversByRegion servers) topo.gateway_nodes st.bound_nodes =
      .error regSoFar) :
    (provision topo cfg st servers docker key).exn = true ∧
    (provision topo cfg st servers docker key).st.provisioned = false ∧
    (provision topo cfg st servers docker key).st.bound_nodes = regSoFar ∧
    (provision topo cfg st servers docker key).startCalls = [] := by
  rw [provision, h]
  simp only [Bool.false_eq_true, if_false, ht, herr]
  exact ⟨trivial, trivial, trivial, trivial⟩

/-- Unfolding `provision` when not yet provisioned but the `add_task` loop
raises (`getattr`/unpacking failure): the exception propagates with the
state unchanged. -/
theorem provision_tasks_fail (topo : Topology) (cfg : TransferConfig)
    (st : DataplaneState) (servers : List Server) (docker : String) (key : Nat)
    (h : st.provisioned = false)
    (ht : (addTasks cfg topo.gateway_nodes).2 = true) :
    (provision topo cfg st servers docker key).exn = true ∧
    (provision topo cfg st servers docker key).st = st ∧
    (provision topo cfg st servers docker key).startCalls = [] := by
  rw [provision, h]
  simp only [Bool.false_eq_true, if_false, ht]
  simp

/-- C4: after a successful provision starting from a fresh state, under
the precondition that the provisioner returned, for every region tag, at
least as many server handles as there are gateway nodes carrying that tag
(and that the task loop's config lookups succeed), the provisioned flag is
set, every node of the topology's gateway set has exactly one entry in the
bound-node registry, and no two nodes in different regions are bound to
the same server handle. -/
theorem C4_registry_completeness (topo : Topology) (cfg : TransferConfig)
    (st : DataplaneState) (servers : List Server) (docker : String) (key : Nat)
    (h : st.provisioned = false) (hb0 : st.bound_nodes = [])
    (ht : (addTasks cfg topo.gateway_nodes).2 = false)
    (hcount : ∀ nd ∈ topo.gateway_nodes,
      countNodes topo.gateway_nodes nd.region ≤
        (serversByRegion servers nd.region).length) :
    (provision topo cfg st servers docker key).exn = false ∧
    (provision topo cfg st servers docker key).st.provisioned = true ∧
    (∀ nd ∈ topo.gateway_nodes,
      ((provision topo cfg st servers docker key).st.bound_nodes.map Prod.fst).count nd
        = 1) ∧
    (∀ p ∈ (provision topo cfg st servers docker key).st.bound_nodes,
      ∀ q ∈ (provision topo cfg st servers docker key).st.bound_nodes,
      p.1.region ≠ q.1.region → p.2 ≠ q.2) := by
  have hcountAll : ∀ r, countNodes topo.gateway_nodes r ≤
      (serversByRegion servers r).length := by
    intro r
    by_cases hz : countNodes topo.gateway_nodes r = 0
    · omega
    · obtain ⟨nd, hnd, hr⟩ := countNodes_pos_mem _ _ (Nat.pos_of_ne_zero hz)
      exact hr ▸ hcount nd hnd
  have hbuck : ∀ r s, s ∈ serversByRegion servers r → s.region_tag = r := by
    intro r s hs
    rw [serversByRegion] at hs
    exact of_decide_eq_true (List.mem_filter.1 hs).2
  obtain ⟨reg', hok, hnd, hrp, hmem1, _⟩ :=
    bindLoop_ok_of_counts topo.gateway_nodes (serversByRegion servers) []
      hcountAll hbuck (by simp) (by simp)
  rw [← hb0] at hok
  have hp := provision_bind_ok topo cfg st servers docker key reg' h ht hok
  refine ⟨hp.1, hp.2.1, ?_, ?_⟩
  · intro nd hmem
    rw [hp.2.2.1]
    exact List.count_eq_one_of_mem hnd (hmem1 nd hmem)
  · rw [hp.2.2.1]
    intro p hpm q hqm hne heq
    apply hne
    rw [← hrp p hpm, ← hrp q hqm, heq]

/-- Witness for C4 at the concrete three-node topology with exactly
matching servers. -/
theorem C4_registry_completeness_witness :
    (provision topoABC cfg0 st0 [srvA, srvB, srvC] "img" 5).exn = false ∧
    (provision topoABC cfg0 st0 [srvA, srvB, srvC] "img" 5).st.provisioned = true ∧
    ((provision topoABC cfg0 st0 [srvA, srvB, srvC] "img" 5).st.bound_nodes.map
        Prod.fst).count nodeB = 1 := by
  have h := C4_registry_completeness topoABC cfg0 st0 [srvA, srvB, srvC] "img" 5
    rfl rfl (by decide) (by decide)
  exact ⟨h.1, h.2.1, h.2.2.1 nodeB (by decide)⟩

/-- C1 counterexample: with four gateway nodes in four regions and the
provisioner returning servers for only three of them, `provision` does NOT
complete: the binding loop raises an uncaught `IndexError` (pop from an
empty region bucket), the provisioned flag remains false, no gateway is
started, and only the three nodes processed before the failure are in the
registry. This refutes the claim that provision completes and still sets
the provisioned flag to true. -/
theorem C1_counterexample :
    (provision topoFour cfg0 st0 [srvR1, srvR2, srvR3] "img" 0).exn = true ∧
    (provision topoFour cfg0 st0 [srvR1, srvR2, srvR3] "img" 0).st.provisioned
      = false ∧
    (provision topoFour cfg0 st0 [srvR1, srvR2, srvR3] "img" 0).st.bound_nodes =
      [(nodeR1, srvR1), (nodeR2, srvR2), (nodeR3, srvR3)] ∧
    (provision topoFour cfg0 st0 [srvR1, srvR2, srvR3] "img" 0).startCalls = [] := by
  decide

/-- C1 amended: if the provisioner's batch returns strictly fewer servers
for some requested region than that region has gateway nodes, `provision`
does not complete: an uncaught exception propagates out of the binding
loop (or already out of the task loop), the provisioned flag remains
false, and no gateway bootstrap is attempted; the registry keeps exactly
the nodes bound before the failing pop. -/
theorem C1_partial_failure_raises (topo : Topology) (cfg : TransferConfig)
    (st : DataplaneState) (servers : List Server) (docker : String) (key : Nat)
    (h : st.provisioned = false)
    (hshort : ∃ nd ∈ topo.gateway_nodes,
      (serversByRegion servers nd.region).length <
        countNodes topo.gateway_nodes nd.region) :
    (provision topo cfg st servers docker key).exn = true ∧
    (provision topo cfg st servers docker key).st.provisioned = false ∧
    (provision topo cfg st servers docker key).startCalls = [] := by
  cases ht : (addTasks cfg topo.gateway_nodes).2 with
  | true =>
    have hp := provision_tasks_fail topo cfg st servers docker key h ht
    exact ⟨hp.1, by rw [hp.2.1]; exact h, hp.2.2⟩
  | false =>
    cases hbind : bindLoop (serversByRegion servers) topo.gateway_nodes st.bound_nodes
      with
    | error regSoFar =>
      have hp := provision_bind_error topo cfg st servers docker key regSoFar h ht hbind
      exact ⟨hp.1, hp.2.1, hp.2.2.2⟩
    | ok reg' =>
      obtain ⟨nd, _, hlt⟩ := hshort
      have := bindLoop_ok_counts topo.gateway_nodes (serversByRegion servers)
        st.bound_nodes reg' hbind nd.region
      omega

/-- Witness for the amended C1 at the concrete four-region topology with
one region missing its server. -/
theorem C1_partial_failure_raises_witness :
    (provision topoFour cfg0 stUn [srvR1, srvR2, srvR3] "img" 0).exn = true ∧
    (provision topoFour cfg0 stUn [srvR1, srvR2, srvR3] "img" 0).st.provisioned
      = false := by
  have h := C1_partial_failure_raises topoFour cfg0 stUn [srvR1, srvR2, srvR3] "img" 0
    rfl (by decide)
  exact ⟨h.1, h.2.1⟩
